import Mathlib

/-!
A verification development for the Sales-Force multi-tenant ERP repository.

Python model code is embedded shallowly: Django model instances become Lean
structures, `save()` methods and other stateful operations become pure
functions returning the updated records, database-assigned values (primary
keys, generated document numbers) become explicit parameters, and Python
exceptions become `Except String` results.  Monetary values are Python
`Decimal`s; on the operations appearing here (addition, subtraction,
multiplication, division by 100) Decimal arithmetic is exact for the ranges
involved, so they are embedded as rationals.  Dates and datetimes are embedded
as integers (a day or timestamp number); `timezone.now()` becomes an explicit
`now`/`today` parameter.
-/

namespace Billing

/-- Embeds `billing/models/invoice.py`, class `InvoiceItem`: the persisted
fields of an invoice line item that take part in the arithmetic. -/
structure InvoiceItem where
  description : String
  quantity : ℚ
  unit_price : ℚ
  discount_percentage : ℚ
  discount_amount : ℚ
  tax_rate : ℚ
  tax_amount : ℚ
  total : ℚ
  order : Int
deriving DecidableEq, Repr

/-- Embeds `InvoiceItem.save`: on every save the line item recomputes
`discount_amount`, `tax_amount` and `total` from quantity, unit price,
discount percentage and tax rate. -/
def InvoiceItem.save (it : InvoiceItem) : InvoiceItem :=
  let subtotal := it.quantity * it.unit_price
  let discount_amount := subtotal * (it.discount_percentage / 100)
  let taxable_amount := subtotal - discount_amount
  let tax_amount := taxable_amount * (it.tax_rate / 100)
  let total := taxable_amount + tax_amount
  { it with discount_amount := discount_amount, tax_amount := tax_amount, total := total }

/-- Embeds `billing/models/invoice.py`, class `Invoice`: the fields involved
in totals computation, payment state and status transitions.  The related
line items (`self.items.all()`) are carried inline as a list. -/
structure Invoice where
  invoice_number : String
  invoice_date : Int
  due_date : Int
  status : String
  subtotal : ℚ
  discount_type : String
  discount_value : ℚ
  discount_amount : ℚ
  tax_amount : ℚ
  total_amount : ℚ
  amount_paid : ℚ
  amount_due : ℚ
  items : List InvoiceItem
deriving DecidableEq, Repr

/-- Embeds the `Invoice.is_overdue` property: not in a terminal state and past
the due date (`timezone.now().date()` is the `today` parameter). -/
def Invoice.is_overdue (inv : Invoice) (today : Int) : Bool :=
  decide (inv.status ∉ (["paid", "cancelled", "refunded"] : List String))
    && decide (inv.due_date < today)

/-- Embeds `Invoice.calculate_totals`: recomputes subtotal (sum of item
totals), discount, tax (sum of item tax amounts), total, amount due, and then
re-derives the status from the payment state. -/
def Invoice.calculate_totals (inv : Invoice) (today : Int) : Invoice :=
  let subtotal := (inv.items.map (fun it => it.total)).sum
  let discount_amount :=
    if inv.discount_type = "fixed" then min inv.discount_value subtotal
    else subtotal * (inv.discount_value / 100)
  let taxable_amount := subtotal - discount_amount
  let tax_amount := (inv.items.map (fun it => it.tax_amount)).sum
  let total_amount := taxable_amount + tax_amount
  let amount_due := total_amount - inv.amount_paid
  let inv1 : Invoice :=
    { inv with
      subtotal := subtotal
      discount_amount := discount_amount
      tax_amount := tax_amount
      total_amount := total_amount
      amount_due := amount_due }
  if inv1.amount_paid ≥ inv1.total_amount then { inv1 with status := "paid" }
  else if inv1.amount_paid > 0 then { inv1 with status := "partial" }
  else if inv1.is_overdue today && decide (inv1.status ∉ (["draft", "cancelled"] : List String)) then
    { inv1 with status := "overdue" }
  else inv1

/-- Embeds `Invoice.save`: generates an invoice number when blank (the number
derived from the database is the `generated_number` parameter) and persists
the record otherwise unchanged. -/
def Invoice.save (inv : Invoice) (generated_number : String) : Invoice :=
  if inv.invoice_number = "" then { inv with invoice_number := generated_number } else inv

/-- Embeds `billing/models/payment.py`, class `Payment`.  `pk` carries the
value of `self.pk` at save time, with `none` a falsy pk.  The primary key is
declared `UUIDField(primary_key=True, default=uuid.uuid4)`, and the framework
applies field defaults at instantiation, so a normally constructed Payment
already holds `some` fresh UUID before its first save — see `Payment.new`. -/
structure Payment where
  pk : Option Nat
  payment_number : String
  amount : ℚ
deriving DecidableEq, Repr

/-- Embeds constructing a Payment instance (`Payment(...)` or
`Payment.objects.create(...)`): the framework assigns each omitted field its
declared default at instantiation, so the `uuid.uuid4` default of the `id`
primary key (the `fresh_uuid` parameter) is already in place and `self.pk`
is truthy before the first save ever runs. -/
def Payment.new (fresh_uuid : Nat) (payment_number : String) (amount : ℚ) : Payment :=
  { pk := some fresh_uuid, payment_number := payment_number, amount := amount }

/-- Embeds `Payment.save`: generates a payment number when blank, saves the
row (`new_pk` is the key under which the row is persisted), and only when
`not self.pk` held on entry (falsy pk, embedded as `pk = none`) increments
the linked invoice `amount_paid` by the payment amount, recomputes its totals
and saves the invoice.  Because every instance built through `Payment.new`
enters with a truthy pk, that increment branch is unreachable in the
program. -/
def Payment.save (p : Payment) (invoice : Invoice) (today : Int) (new_pk : Nat)
    (generated_number inv_generated_number : String) : Payment × Invoice :=
  let p1 := if p.payment_number = "" then { p with payment_number := generated_number } else p
  let is_new := p1.pk = none
  let p2 := { p1 with pk := some (p1.pk.getD new_pk) }
  if is_new then
    let inv1 := { invoice with amount_paid := invoice.amount_paid + p2.amount }
    let inv2 := inv1.calculate_totals today
    (p2, inv2.save inv_generated_number)
  else
    (p2, invoice)

/-- Embeds `billing/models/quotation.py`, class `QuotationItem` (structurally
parallel to `InvoiceItem`). -/
structure QuotationItem where
  description : String
  quantity : ℚ
  unit_price : ℚ
  discount_percentage : ℚ
  discount_amount : ℚ
  tax_rate : ℚ
  tax_amount : ℚ
  total : ℚ
  order : Int
deriving DecidableEq, Repr

/-- Embeds `QuotationItem.save`: the same recomputation as `InvoiceItem.save`. -/
def QuotationItem.save (it : QuotationItem) : QuotationItem :=
  let subtotal := it.quantity * it.unit_price
  let discount_amount := subtotal * (it.discount_percentage / 100)
  let taxable_amount := subtotal - discount_amount
  let tax_amount := taxable_amount * (it.tax_rate / 100)
  let total := taxable_amount + tax_amount
  { it with discount_amount := discount_amount, tax_amount := tax_amount, total := total }

/-- Embeds `billing/models/quotation.py`, class `Quotation`: the fields used
by totals computation and invoice conversion. -/
structure Quotation where
  quote_number : String
  status : String
  valid_until : Int
  subtotal : ℚ
  discount_type : String
  discount_value : ℚ
  discount_amount : ℚ
  tax_amount : ℚ
  total_amount : ℚ
  items : List QuotationItem
deriving DecidableEq, Repr

/-- Embeds `Quotation.calculate_totals` (same logic as the invoice version,
without the status/payment part). -/
def Quotation.calculate_totals (q : Quotation) : Quotation :=
  let subtotal := (q.items.map (fun it => it.total)).sum
  let discount_amount :=
    if q.discount_type = "fixed" then min q.discount_value subtotal
    else subtotal * (q.discount_value / 100)
  let taxable_amount := subtotal - discount_amount
  let tax_amount := (q.items.map (fun it => it.tax_amount)).sum
  let total_amount := taxable_amount + tax_amount
  { q with subtotal := subtotal, discount_amount := discount_amount,
           tax_amount := tax_amount, total_amount := total_amount }

/-- Embeds the per-item part of `Quotation.convert_to_invoice`:
`InvoiceItem.objects.create(...)` copies description, quantity, unit price,
discount percentage, tax rate and order, and `create` runs `InvoiceItem.save`,
which recomputes the financial fields. -/
def QuotationItem.copy_to_invoice (it : QuotationItem) : InvoiceItem :=
  InvoiceItem.save
    { description := it.description, quantity := it.quantity, unit_price := it.unit_price,
      discount_percentage := it.discount_percentage, discount_amount := 0,
      tax_rate := it.tax_rate, tax_amount := 0, total := 0, order := it.order }

/-- Embeds `Quotation.convert_to_invoice`: only an accepted quotation
converts; the new invoice copies the financial fields, takes
`due_date = today + (customer.payment_terms or 30)`, copies every line item
(recomputed on save), then runs `calculate_totals` and saves.
`customer_payment_terms` is `self.customer.payment_terms` (an integer field);
`inv_generated_number` is the number the database layer generates. -/
def Quotation.convert_to_invoice (q : Quotation) (customer_payment_terms : Int)
    (today : Int) (inv_generated_number : String) : Except String Invoice :=
  if q.status ≠ "accepted" then
    .error "Only accepted quotations can be converted to invoices"
  else
    let invoice : Invoice :=
      { invoice_number := ""
        invoice_date := today
        due_date := today + (if customer_payment_terms ≠ 0 then customer_payment_terms else 30)
        status := "draft"
        subtotal := q.subtotal
        discount_type := q.discount_type
        discount_value := q.discount_value
        discount_amount := q.discount_amount
        tax_amount := q.tax_amount
        total_amount := q.total_amount
        amount_paid := 0
        amount_due := 0
        items := [] }
    let invoice := invoice.save inv_generated_number
    let invoice := { invoice with items := q.items.map QuotationItem.copy_to_invoice }
    let invoice := invoice.calculate_totals today
    .ok (invoice.save inv_generated_number)

end Billing

namespace Tenants

/-- Embeds `tenants/models.py`, class `Tenant`: the subscription, limit and
feature fields read by the derived policy surface and the middleware.
`trial_end_date` is nullable in the schema, hence an `Option`. -/
structure Tenant where
  schema_name : String
  subscription_status : String
  trial_end_date : Option Int
  max_users : Int
  max_leads : Int
  max_storage_mb : Int
  current_users : Int
  current_leads : Int
  current_storage_mb : Int
  enabled_features : List (String × Bool)
deriving DecidableEq, Repr

/-- Embeds the `Tenant.is_on_trial` property,
`subscription_status == trial and trial_end_date > timezone.now()`, including
the Python evaluation order: the conjunction short-circuits on a non-trial
status, and comparing a null `trial_end_date` with a datetime raises a
`TypeError`, embedded as an `error` result. -/
def Tenant.is_on_trial (t : Tenant) (now : Int) : Except String Bool :=
  if t.subscription_status = "trial" then
    match t.trial_end_date with
    | none => .error "TypeError: NoneType is not comparable with datetime"
    | some d => .ok (decide (d > now))
  else .ok false

/-- Embeds the `Tenant.is_trial_expired` property,
`subscription_status == trial and trial_end_date <= timezone.now()`, with the
same evaluation order and null behavior as `is_on_trial`. -/
def Tenant.is_trial_expired (t : Tenant) (now : Int) : Except String Bool :=
  if t.subscription_status = "trial" then
    match t.trial_end_date with
    | none => .error "TypeError: NoneType is not comparable with datetime"
    | some d => .ok (decide (d ≤ now))
  else .ok false

/-- Embeds the `Tenant.can_add_users` property:
`max_users == -1 or current_users < max_users` (pure integer comparisons,
never raising). -/
def Tenant.can_add_users (t : Tenant) : Bool :=
  decide (t.max_users = -1) || decide (t.current_users < t.max_users)

/-- Embeds the `Tenant.can_add_leads` property:
`max_leads == -1 or current_leads < max_leads`. -/
def Tenant.can_add_leads (t : Tenant) : Bool :=
  decide (t.max_leads = -1) || decide (t.current_leads < t.max_leads)

/-- Embeds the `Tenant.storage_usage_percentage` property: 0 when
`max_storage_mb` is 0, else `current_storage_mb / max_storage_mb * 100`
(the zero guard makes the division total). -/
def Tenant.storage_usage_percentage (t : Tenant) : ℚ :=
  if t.max_storage_mb = 0 then 0
  else ((t.current_storage_mb : ℚ) / (t.max_storage_mb : ℚ)) * 100

/-- Embeds `Tenant.has_feature`: `enabled_features.get(feature_name, False)`,
a dictionary lookup with a `False` default, never raising. -/
def Tenant.has_feature (t : Tenant) (feature_name : String) : Bool :=
  (((t.enabled_features.find? (fun p => p.1 == feature_name)).map (fun p => p.2)).getD false)

end Tenants

namespace Accounts

/-- Embeds the role-to-permission dictionary built inside
`accounts/models.py`, `User.get_permissions`, keyed by role. -/
def permissions_table : List (String × List (String × List String)) :=
  [ ("super_admin",
      [ ("users", ["create", "read", "update", "delete"]),
        ("leads", ["create", "read", "update", "delete", "assign"]),
        ("customers", ["create", "read", "update", "delete"]),
        ("deals", ["create", "read", "update", "delete"]),
        ("products", ["create", "read", "update", "delete"]),
        ("invoices", ["create", "read", "update", "delete", "send"]),
        ("reports", ["view", "export"]),
        ("settings", ["view", "update"]),
        ("billing", ["view", "update"]) ]),
    ("admin",
      [ ("users", ["create", "read", "update", "delete"]),
        ("leads", ["create", "read", "update", "delete", "assign"]),
        ("customers", ["create", "read", "update", "delete"]),
        ("deals", ["create", "read", "update", "delete"]),
        ("products", ["create", "read", "update", "delete"]),
        ("invoices", ["create", "read", "update", "delete", "send"]),
        ("reports", ["view", "export"]),
        ("settings", ["view", "update"]),
        ("billing", ["view", "update"]) ]),
    ("manager",
      [ ("users", ["read"]),
        ("leads", ["create", "read", "update", "delete", "assign"]),
        ("customers", ["create", "read", "update", "delete"]),
        ("deals", ["create", "read", "update", "delete"]),
        ("products", ["read"]),
        ("invoices", ["create", "read", "update", "send"]),
        ("reports", ["view", "export"]),
        ("settings", ["view"]) ]),
    ("executive",
      [ ("users", []),
        ("leads", ["create", "read", "update"]),
        ("customers", ["create", "read", "update"]),
        ("deals", ["create", "read", "update"]),
        ("products", ["read"]),
        ("invoices", ["create", "read"]),
        ("reports", ["view"]),
        ("settings", []) ]),
    ("viewer",
      [ ("users", []),
        ("leads", ["read"]),
        ("customers", ["read"]),
        ("deals", ["read"]),
        ("products", ["read"]),
        ("invoices", ["read"]),
        ("reports", ["view"]),
        ("settings", []) ]) ]

/-- Embeds `User.get_permissions`: `permissions.get(self.role, {})`. -/
def get_permissions (role : String) : List (String × List String) :=
  ((permissions_table.find? (fun p => p.1 == role)).map (fun p => p.2)).getD []

/-- Convenience projection: the action list a role holds for one object type
(an absent key is the empty set of actions). -/
def role_actions (role object : String) : List String :=
  (((get_permissions role).find? (fun p => p.1 == object)).map (fun p => p.2)).getD []

end Accounts

namespace Sales

/-- Embeds `sales/models/lead.py`, class `Lead`: contact/company/address
fields, the status machine and the conversion link. -/
structure Lead where
  first_name : String
  last_name : String
  email : String
  phone : String
  secondary_phone : String
  company_name : String
  job_title : String
  industry : String
  address : String
  city : String
  state : String
  country : String
  postal_code : String
  source : String
  status : String
  assigned_to : Option Nat
  converted_to_customer : Option Nat
  converted_date : Option Int
deriving DecidableEq, Repr

/-- Embeds `sales/models/customer.py`, class `Customer`: the fields populated
by lead conversion. -/
structure Customer where
  first_name : String
  last_name : String
  email : String
  phone : String
  secondary_phone : String
  company_name : String
  job_title : String
  industry : String
  billing_address : String
  billing_city : String
  billing_state : String
  billing_country : String
  billing_postal_code : String
  created_by : Nat
  lead_source : String
  assigned_to : Option Nat
deriving DecidableEq, Repr

/-- Embeds `Lead.convert_to_customer`: an already-converted lead raises
`ValueError`; otherwise a Customer is created copying the contact, company
and address fields, and the lead is stamped converted and linked to it.
`new_customer_id` is the database-assigned key of the created row. -/
def Lead.convert_to_customer (lead : Lead) (user : Nat) (now : Int)
    (new_customer_id : Nat) : Except String (Lead × Customer) :=
  if lead.status = "converted" then .error "Lead is already converted"
  else
    let customer : Customer :=
      { first_name := lead.first_name
        last_name := lead.last_name
        email := lead.email
        phone := lead.phone
        secondary_phone := lead.secondary_phone
        company_name := lead.company_name
        job_title := lead.job_title
        industry := lead.industry
        billing_address := lead.address
        billing_city := lead.city
        billing_state := lead.state
        billing_country := lead.country
        billing_postal_code := lead.postal_code
        created_by := user
        lead_source := lead.source
        assigned_to := lead.assigned_to }
    .ok ({ lead with
            converted_to_customer := some new_customer_id
            converted_date := some now
            status := "converted" },
         customer)

end Sales

namespace Middleware

/-- The request data read by the middleware under
`ambivare_erp/middleware/`: HTTP method, path, whether `request.is_ajax()`
holds, and the uploaded files as (field name, byte size) pairs. -/
structure Request where
  method : String
  path : String
  is_ajax : Bool
  files : List (String × Int)
deriving DecidableEq, Repr

/-- The responses the subscription middleware can return instead of letting a
request through: a 403 JSON error with a code, a 403 JSON limit-exceeded
payload naming the resource and its limit, or a redirect carrying a flash
message. -/
inductive MwResponse where
  | jsonError (code : String)
  | jsonLimitExceeded (resource : String) (limit : String)
  | redirectWithMessage (target : String) (message : String)
deriving DecidableEq, Repr

/-- Embeds Python `str.startswith` (used by every middleware path test) as a
character-prefix check, which reduces inside the kernel. -/
def str_startswith (s pre : String) : Bool := pre.toList.isPrefixOf s.toList

/-- Embeds `SubscriptionMiddleware.EXEMPT_URLS`. -/
def EXEMPT_URLS : List String :=
  ["/admin/", "/api/auth/login/", "/api/auth/logout/", "/billing/subscription/",
   "/billing/upgrade/", "/static/", "/media/"]

/-- Embeds `SubscriptionMiddleware._handle_limit_exceeded`: JSON with code
`LIMIT_EXCEEDED` for AJAX/API callers, else a flash message plus a redirect
to the upgrade page. -/
def handle_limit_exceeded (req : Request) (resource_type : String) (limit : String) :
    MwResponse :=
  if req.is_ajax || str_startswith req.path "/api/" then
    .jsonLimitExceeded resource_type limit
  else
    .redirectWithMessage "billing:upgrade"
      ("You have reached your " ++ resource_type ++ " limit (" ++ limit ++
       "). Please upgrade your plan to continue.")

/-- Embeds `SubscriptionMiddleware._handle_cancelled_subscription`. -/
def handle_cancelled_subscription (req : Request) : MwResponse :=
  if req.is_ajax || str_startswith req.path "/api/" then .jsonError "SUBSCRIPTION_CANCELLED"
  else .redirectWithMessage "billing:subscription"
    "Your subscription has been cancelled. Please contact support."

/-- Embeds `SubscriptionMiddleware._handle_past_due_subscription`: JSON error
for AJAX/API; page callers are redirected only on non-GET methods (read-only
access stays allowed, hence the `Option`). -/
def handle_past_due_subscription (req : Request) : Option MwResponse :=
  if req.is_ajax || str_startswith req.path "/api/" then some (.jsonError "SUBSCRIPTION_PAST_DUE")
  else if req.method ≠ "GET" then
    some (.redirectWithMessage "billing:subscription"
      "Your subscription payment is past due. Please update your payment method.")
  else none

/-- Embeds `SubscriptionMiddleware._handle_expired_trial`. -/
def handle_expired_trial (req : Request) : MwResponse :=
  if req.is_ajax || str_startswith req.path "/api/" then .jsonError "TRIAL_EXPIRED"
  else .redirectWithMessage "billing:upgrade" "Your trial has expired. Please upgrade to continue using our services."

/-- Embeds `SubscriptionMiddleware._check_resource_limits`: sequential
checks — user-creation paths against `can_add_users`, lead-creation paths
against `can_add_leads`, then uploads against the storage headroom. -/
def check_resource_limits (req : Request) (t : Tenants.Tenant) : Option MwResponse :=
  if (str_startswith req.path "/accounts/users/create/" || str_startswith req.path "/api/users/")
      && !t.can_add_users then
    some (handle_limit_exceeded req "users" (toString t.max_users))
  else if (str_startswith req.path "/sales/leads/create/" || str_startswith req.path "/api/leads/")
      && !t.can_add_leads then
    some (handle_limit_exceeded req "leads" (toString t.max_leads))
  else if req.files.any (fun f => f.1 == "file") || req.files.any (fun f => f.1 == "attachment") then
    let file_size : Int := (req.files.map (fun f => f.2)).sum
    let file_size_mb : ℚ := (file_size : ℚ) / (1024 * 1024)
    if (t.current_storage_mb : ℚ) + file_size_mb > (t.max_storage_mb : ℚ) then
      some (handle_limit_exceeded req "storage" (toString t.max_storage_mb ++ "MB"))
    else none
  else none

/-- Embeds `SubscriptionMiddleware.process_request`: skip for the public
schema and exempt URLs; block cancelled subscriptions, past-due writes and
expired trials; then, for POST requests, check resource limits.  The result
is `ok none` when the request is let through; the `is_trial_expired` call can
raise, so the whole step is `Except`-valued. -/
def SubscriptionMiddleware.process_request (req : Request) (t : Tenants.Tenant)
    (now : Int) : Except String (Option MwResponse) :=
  if t.schema_name = "public" then .ok none
  else if EXEMPT_URLS.any (fun u => str_startswith req.path u) then .ok none
  else if t.subscription_status = "cancelled" then .ok (some (handle_cancelled_subscription req))
  else if t.subscription_status = "past_due" then .ok (handle_past_due_subscription req)
  else
    match t.is_trial_expired now with
    | .error e => .error e
    | .ok expired =>
      if expired then .ok (some (handle_expired_trial req))
      else if req.method = "POST" then .ok (check_resource_limits req t)
      else .ok none

/-- Embeds the rate table of
`ambivare_erp/middleware/security.py`, `RateLimitMiddleware.__init__`
(insertion order preserved, as in a Python dict): each entry is a path
pattern with (max requests, window seconds). -/
def rates : List (String × Nat × ℚ) :=
  [("api/auth/login", 5, 300),
   ("api/auth/register", 3, 3600),
   ("api/auth/password-reset", 3, 3600),
   ("api/", 1000, 3600)]

/-- Embeds `request.path.strip('/')`: removes leading and trailing slashes. -/
def stripSlashes (s : String) : String :=
  ⟨((s.toList.dropWhile (fun c => c = '/')).reverse.dropWhile (fun c => c = '/')).reverse⟩

/-- Embeds `RateLimitMiddleware.get_client_id`: the authenticated user id, or
for anonymous callers the first entry of `X-Forwarded-For`, falling back to
the remote address. -/
def get_client_id (user_pk : Option Nat) (x_forwarded_for : Option String)
    (remote_addr : String) : String :=
  match user_pk with
  | some uid => "user:" ++ toString uid
  | none =>
    let ip := match x_forwarded_for with
      | some xff => (xff.splitOn ",").headD ""
      | none => remote_addr
    "ip:" ++ ip

/-- The in-memory cache `self.cache` of `RateLimitMiddleware`: a map from
cache key to the list of request timestamps, embedded as an association
list. -/
abbrev RlCache := List (String × List ℚ)

/-- Dictionary read with `[]` default (the middleware inserts `[]` for a
missing key before reading it). -/
def rlGet (c : RlCache) (k : String) : List ℚ :=
  (((c.find? (fun p => p.1 == k)).map (fun p => p.2)).getD [])

/-- Dictionary write: replace the entry for the key, or append one. -/
def rlSet (c : RlCache) (k : String) (v : List ℚ) : RlCache :=
  if c.any (fun p => p.1 == k) then
    c.map (fun p => if p.1 == k then (k, v) else p)
  else c ++ [(k, v)]

/-- Embeds `RateLimitMiddleware.process_request` for one request: match the
stripped path against the first applicable rate rule, prune window entries
older than the window from the cached list, store the pruned list back, and
either reject with Forbidden (when the pruned list already holds the maximum)
or record the current timestamp and let the request through.  Returns the
Forbidden body (if any) and the updated cache. -/
def RateLimitMiddleware.process_request (cache : RlCache) (path client_id : String)
    (now : ℚ) : Option String × RlCache :=
  let p := stripSlashes path
  match rates.find? (fun r => str_startswith p r.1) with
  | none => (none, cache)
  | some r =>
    let max_requests := r.2.1
    let window := r.2.2
    let cache_key := p ++ ":" ++ client_id
    let kept := (rlGet cache cache_key).filter (fun ts => now - ts < window)
    if kept.length ≥ max_requests then
      (some "Rate limit exceeded. Please try again later.", rlSet cache cache_key kept)
    else
      (none, rlSet cache cache_key (kept ++ [now]))

/-- Runs the rate limiter over a sequence of request timestamps for one path
and client, threading the cache, and collects the decisions (a `none`
decision lets the request through). -/
def rl_run (path client_id : String) : RlCache → List ℚ → List (Option String) × RlCache
  | cache, [] => ([], cache)
  | cache, t :: ts =>
    let r := RateLimitMiddleware.process_request cache path client_id t
    let rest := rl_run path client_id r.2 ts
    (r.1 :: rest.1, rest.2)

end Middleware

namespace Products

/-- Embeds `products/models.py`, class `Product` (only the field priced by
price lists). -/
structure Product where
  base_price : ℚ
deriving DecidableEq, Repr

/-- Embeds `products/models.py`, class `PriceListItem`: nullable fixed price
and discount percentage, and the minimum-quantity break. -/
structure PriceListItem where
  fixed_price : Option ℚ
  discount_percentage : Option ℚ
  min_quantity : ℚ
deriving DecidableEq, Repr

/-- Python truthiness of a nullable Decimal: `None` and zero are falsy,
everything else truthy. -/
def decimalTruthy (x : Option ℚ) : Bool :=
  match x with
  | none => false
  | some v => decide (v ≠ 0)

/-- Embeds `PriceListItem.get_price`: `None` below the minimum quantity, else
the fixed price when truthy, else the discounted base price when the
discount is truthy, else the base price. -/
def PriceListItem.get_price (item : PriceListItem) (product : Product)
    (quantity : ℚ) : Option ℚ :=
  if quantity < item.min_quantity then none
  else if decimalTruthy item.fixed_price then item.fixed_price
  else if decimalTruthy item.discount_percentage then
    some (product.base_price * (1 - (item.discount_percentage.getD 0) / 100))
  else some product.base_price

end Products

namespace Integrations

/-!
`WebhookEndpoint.generate_signature` calls
`hmac.new(self.secret_key.encode(), payload.encode(), hashlib.sha256).hexdigest()`.
The Python standard library functions are embedded here: SHA-256 (FIPS 180-4)
over byte lists (naturals below 256, 32-bit words as naturals reduced mod
2^32), the HMAC construction (RFC 2104) on top of it, and lowercase hex
encoding.
-/

/-- Truncation to a 32-bit word. -/
def w32 (x : ℕ) : ℕ := x % 4294967296

/-- Right rotation of a 32-bit word. -/
def rotr (n x : ℕ) : ℕ := w32 ((x >>> n) ||| (x <<< (32 - n)))

/-- SHA-256 Ch function (bitwise not is xor with the 32-bit mask). -/
def sha256Ch (x y z : ℕ) : ℕ := ((x &&& y) ^^^ ((x ^^^ 4294967295) &&& z))

/-- SHA-256 Maj function. -/
def sha256Maj (x y z : ℕ) : ℕ := (x &&& y) ^^^ (x &&& z) ^^^ (y &&& z)

/-- SHA-256 big sigma 0. -/
def bsig0 (x : ℕ) : ℕ := rotr 2 x ^^^ rotr 13 x ^^^ rotr 22 x

/-- SHA-256 big sigma 1. -/
def bsig1 (x : ℕ) : ℕ := rotr 6 x ^^^ rotr 11 x ^^^ rotr 25 x

/-- SHA-256 small sigma 0. -/
def ssig0 (x : ℕ) : ℕ := rotr 7 x ^^^ rotr 18 x ^^^ (x >>> 3)

/-- SHA-256 small sigma 1. -/
def ssig1 (x : ℕ) : ℕ := rotr 17 x ^^^ rotr 19 x ^^^ (x >>> 10)

/-- The 64 SHA-256 round constants. -/
def sha256K : List ℕ :=
  [1116352408, 1899447441, 3049323471, 3921009573,
   961987163, 1508970993, 2453635748, 2870763221,
   3624381080, 310598401, 607225278, 1426881987,
   1925078388, 2162078206, 2614888103, 3248222580,
   3835390401, 4022224774, 264347078, 604807628,
   770255983, 1249150122, 1555081692, 1996064986,
   2554220882, 2821834349, 2952996808, 3210313671,
   3336571891, 3584528711, 113926993, 338241895,
   666307205, 773529912, 1294757372, 1396182291,
   1695183700, 1986661051, 2177026350, 2456956037,
   2730485921, 2820302411, 3259730800, 3345764771,
   3516065817, 3600352804, 4094571909, 275423344,
   430227734, 506948616, 659060556, 883997877,
   958139571, 1322822218, 1537002063, 1747873779,
   1955562222, 2024104815, 2227730452, 2361852424,
   2428436474, 2756734187, 3204031479, 3329325298]

/-- The SHA-256 initial hash value. -/
def sha256H0 : List ℕ :=
  [1779033703, 3144134277, 1013904242, 2773480762,
   1359893119, 2600822924, 528734635, 1541459225]

/-- A natural as `n` big-endian bytes. -/
def bytesBE (n x : ℕ) : List ℕ :=
  (List.range n).map (fun i => (x >>> (8 * (n - 1 - i))) % 256)

/-- SHA-256 message padding: append 0x80, zeros to 56 mod 64, then the bit
length as 8 big-endian bytes. -/
def sha256Pad (msg : List ℕ) : List ℕ :=
  let len := msg.length
  let padZeros := (119 - (len % 64)) % 64
  msg ++ [128] ++ List.replicate padZeros 0 ++ bytesBE 8 (8 * len)

/-- Split a byte list into 64-byte chunks (structural recursion on a fuel
bound so the definition reduces inside the kernel; the length of the list is
always enough fuel because a nonempty list loses at least one element per
step). -/
def chunk64Go : ℕ → List ℕ → List (List ℕ)
  | 0, _ => []
  | _ + 1, [] => []
  | fuel + 1, x :: xs => ((x :: xs).take 64) :: chunk64Go fuel ((x :: xs).drop 64)

/-- Split a byte list into 64-byte chunks. -/
def chunk64 (l : List ℕ) : List (List ℕ) := chunk64Go l.length l

/-- The 16 big-endian 32-bit words of one 64-byte block. -/
def blockWords (b : List ℕ) : Array ℕ :=
  ((List.range 16).map (fun j =>
    ((b.getD (4 * j) 0) <<< 24) ||| ((b.getD (4 * j + 1) 0) <<< 16) |||
    ((b.getD (4 * j + 2) 0) <<< 8) ||| (b.getD (4 * j + 3) 0))).toArray

/-- Extend the 16 message words to the 64-entry message schedule. -/
def sha256Schedule (ws : Array ℕ) : Array ℕ :=
  (List.range 48).foldl (fun ws i =>
    let t := i + 16
    ws.push (w32 (ssig1 (ws.getD (t - 2) 0) + ws.getD (t - 7) 0 +
                  ssig0 (ws.getD (t - 15) 0) + ws.getD (t - 16) 0))) ws

/-- One SHA-256 compression round. -/
def sha256Round (ws : Array ℕ) (st : ℕ × ℕ × ℕ × ℕ × ℕ × ℕ × ℕ × ℕ) (i : ℕ) :
    ℕ × ℕ × ℕ × ℕ × ℕ × ℕ × ℕ × ℕ :=
  let (a, b, c, d, e, f, g, h) := st
  let t1 := w32 (h + bsig1 e + sha256Ch e f g + sha256K.getD i 0 + ws.getD i 0)
  let t2 := w32 (bsig0 a + sha256Maj a b c)
  (w32 (t1 + t2), a, b, c, w32 (d + t1), e, f, g)

/-- The SHA-256 compression function on one block. -/
def sha256Compress (hs : List ℕ) (block : List ℕ) : List ℕ :=
  let ws := sha256Schedule (blockWords block)
  match hs with
  | [a0, b0, c0, d0, e0, f0, g0, h0] =>
    let (a, b, c, d, e, f, g, h) :=
      (List.range 64).foldl (sha256Round ws) (a0, b0, c0, d0, e0, f0, g0, h0)
    [w32 (a0 + a), w32 (b0 + b), w32 (c0 + c), w32 (d0 + d),
     w32 (e0 + e), w32 (f0 + f), w32 (g0 + g), w32 (h0 + h)]
  | _ => hs

/-- SHA-256 of a byte list, as the 32 digest bytes. -/
def sha256 (msg : List ℕ) : List ℕ :=
  let hs := (chunk64 (sha256Pad msg)).foldl sha256Compress sha256H0
  (hs.map (bytesBE 4)).flatten

/-- Embeds Python `hmac.new(key, msg, hashlib.sha256).digest()` (RFC 2104
with a 64-byte block): hash long keys, zero-pad, xor with ipad/opad, nest two
hashes. -/
def hmacSha256 (key msg : List ℕ) : List ℕ :=
  let k0 :=
    if 64 < key.length then sha256 key ++ List.replicate 32 0
    else key ++ List.replicate (64 - key.length) 0
  let ipadKey := k0.map (fun b => b ^^^ 54)
  let opadKey := k0.map (fun b => b ^^^ 92)
  sha256 (opadKey ++ sha256 (ipadKey ++ msg))

/-- One lowercase hex digit. -/
def hexChar (n : ℕ) : Char :=
  if n < 10 then Char.ofNat (48 + n) else Char.ofNat (87 + n)

/-- Embeds `.hexdigest()`: the digest bytes in lowercase hex. -/
def hexdigest (bs : List ℕ) : String :=
  ⟨(bs.map (fun b => [hexChar (b / 16), hexChar (b % 16)])).flatten⟩

/-- Embeds `.encode()` for the ASCII strings used as webhook secrets and
payloads: the code points as bytes. -/
def strBytes (s : String) : List ℕ := s.toList.map (fun c => c.toNat)

/-- Embeds `integrations/models.py`, class `WebhookEndpoint` (the field the
signature uses). -/
structure WebhookEndpoint where
  secret_key : String
deriving DecidableEq, Repr

/-- Embeds `WebhookEndpoint.generate_signature`:
`hmac.new(secret_key.encode(), payload.encode(), hashlib.sha256).hexdigest()`. -/
def WebhookEndpoint.generate_signature (w : WebhookEndpoint) (payload : String) : String :=
  hexdigest (hmacSha256 (strBytes w.secret_key) (strBytes payload))

/-- Modelled from the spec words for the reference claim: the signature
header is computed as HMAC-SHA256 of the raw payload keyed by the secret,
hex-encoded; the HMAC construction is spelled out directly (RFC 2104,
64-byte block). -/
def hmac_sha256_reference (secret payload : List ℕ) : String :=
  let k0 :=
    if 64 < secret.length then sha256 secret ++ List.replicate 32 0
    else secret ++ List.replicate (64 - secret.length) 0
  hexdigest (sha256 ((k0.map (fun b => b ^^^ 92)) ++
    sha256 ((k0.map (fun b => b ^^^ 54)) ++ payload)))

end Integrations

namespace Fixtures

/-- The first line item of the invoice-totals test scenario (quantity 2,
unit price 100, discount 10 percent, tax 18 percent), before saving. -/
def c2_item1 : Billing.InvoiceItem :=
  { description := "item 1", quantity := 2, unit_price := 100,
    discount_percentage := 10, discount_amount := 0, tax_rate := 18,
    tax_amount := 0, total := 0, order := 0 }

/-- The second line item of the invoice-totals test scenario (quantity 1,
unit price 50, discount 0 percent, tax 18 percent), before saving. -/
def c2_item2 : Billing.InvoiceItem :=
  { description := "item 2", quantity := 1, unit_price := 50,
    discount_percentage := 0, discount_amount := 0, tax_rate := 18,
    tax_amount := 0, total := 0, order := 1 }

/-- The invoice of the invoice-totals test scenario: percentage discount of
0, unpaid, not yet due, holding the two saved items. -/
def c2_invoice : Billing.Invoice :=
  { invoice_number := "INV-001001", invoice_date := 0, due_date := 30,
    status := "draft", subtotal := 0, discount_type := "percentage",
    discount_value := 0, discount_amount := 0, tax_amount := 0,
    total_amount := 0, amount_paid := 0, amount_due := 0,
    items := [c2_item1.save, c2_item2.save] }

/-- The line item of the quotation-conversion scenario, as stored after a
save (quantity 1, unit price 50, no discount, 18 percent tax). -/
def c6_item : Billing.QuotationItem :=
  { description := "consulting", quantity := 1, unit_price := 50,
    discount_percentage := 0, discount_amount := 0, tax_rate := 18,
    tax_amount := 9, total := 59, order := 0 }

/-- An accepted quotation holding that item, with stored totals consistent
with `calculate_totals` (subtotal 59, no discount, tax 9, total 68). -/
def c6_quotation : Billing.Quotation :=
  { quote_number := "QT-001001", status := "accepted", valid_until := 100,
    subtotal := 59, discount_type := "percentage", discount_value := 0,
    discount_amount := 0, tax_amount := 9, total_amount := 68,
    items := [c6_item] }

/-- The same quotation still in draft status. -/
def c6_draft_quotation : Billing.Quotation :=
  { c6_quotation with status := "draft" }

/-- A tenant on trial whose `trial_end_date` was never set: the state the
derived-policy safety claim quantifies over. -/
def trial_tenant_without_end_date : Tenants.Tenant :=
  { schema_name := "acme", subscription_status := "trial", trial_end_date := none,
    max_users := 5, max_leads := 500, max_storage_mb := 5120,
    current_users := 1, current_leads := 0, current_storage_mb := 0,
    enabled_features := [] }

end Fixtures

section HelperLemmas

open Billing

/-- The status re-derivation at the end of `calculate_totals` never touches
the recomputed subtotal. -/
theorem calculate_totals_subtotal (inv : Invoice) (today : Int) :
    (inv.calculate_totals today).subtotal = (inv.items.map (fun it => it.total)).sum := by
  unfold Invoice.calculate_totals
  dsimp only
  repeat' split
  all_goals rfl

/-- The discount computed by `calculate_totals`, in terms of the recomputed
subtotal. -/
theorem calculate_totals_discount (inv : Invoice) (today : Int) :
    (inv.calculate_totals today).discount_amount =
      (if inv.discount_type = "fixed" then
        min inv.discount_value ((inv.items.map (fun it => it.total)).sum)
       else ((inv.items.map (fun it => it.total)).sum) * (inv.discount_value / 100)) := by
  unfold Invoice.calculate_totals
  dsimp only
  repeat' split
  all_goals rfl

/-- The tax recomputed by `calculate_totals` is the sum of the item tax
amounts. -/
theorem calculate_totals_tax (inv : Invoice) (today : Int) :
    (inv.calculate_totals today).tax_amount = (inv.items.map (fun it => it.tax_amount)).sum := by
  unfold Invoice.calculate_totals
  dsimp only
  repeat' split
  all_goals rfl

/-- The total recomputed by `calculate_totals`. -/
theorem calculate_totals_total (inv : Invoice) (today : Int) :
    (inv.calculate_totals today).total_amount =
      ((inv.items.map (fun it => it.total)).sum -
        (if inv.discount_type = "fixed" then
          min inv.discount_value ((inv.items.map (fun it => it.total)).sum)
         else ((inv.items.map (fun it => it.total)).sum) * (inv.discount_value / 100))) +
      (inv.items.map (fun it => it.tax_amount)).sum := by
  unfold Invoice.calculate_totals
  dsimp only
  repeat' split
  all_goals rfl

/-- `calculate_totals` never changes `amount_paid`. -/
theorem calculate_totals_amount_paid (inv : Invoice) (today : Int) :
    (inv.calculate_totals today).amount_paid = inv.amount_paid := by
  unfold Invoice.calculate_totals
  dsimp only
  repeat' split
  all_goals rfl

/-- `calculate_totals` never changes the item list. -/
theorem calculate_totals_items (inv : Invoice) (today : Int) :
    (inv.calculate_totals today).items = inv.items := by
  unfold Invoice.calculate_totals
  dsimp only
  repeat' split
  all_goals rfl

/-- `Invoice.save` only ever fills in the document number. -/
theorem invoice_save_amount_paid (inv : Invoice) (n : String) :
    (inv.save n).amount_paid = inv.amount_paid := by
  unfold Invoice.save
  split <;> rfl

/-- `Invoice.save` leaves every field except the document number unchanged:
subtotal. -/
theorem invoice_save_subtotal (inv : Invoice) (n : String) :
    (inv.save n).subtotal = inv.subtotal := by
  unfold Invoice.save
  split <;> rfl

/-- `Invoice.save` keeps the discount type. -/
theorem invoice_save_discount_type (inv : Invoice) (n : String) :
    (inv.save n).discount_type = inv.discount_type := by
  unfold Invoice.save
  split <;> rfl

/-- `Invoice.save` keeps the discount value. -/
theorem invoice_save_discount_value (inv : Invoice) (n : String) :
    (inv.save n).discount_value = inv.discount_value := by
  unfold Invoice.save
  split <;> rfl

/-- `Invoice.save` keeps the discount amount. -/
theorem invoice_save_discount_amount (inv : Invoice) (n : String) :
    (inv.save n).discount_amount = inv.discount_amount := by
  unfold Invoice.save
  split <;> rfl

/-- `Invoice.save` keeps the tax amount. -/
theorem invoice_save_tax_amount (inv : Invoice) (n : String) :
    (inv.save n).tax_amount = inv.tax_amount := by
  unfold Invoice.save
  split <;> rfl

/-- `Invoice.save` keeps the total amount. -/
theorem invoice_save_total_amount (inv : Invoice) (n : String) :
    (inv.save n).total_amount = inv.total_amount := by
  unfold Invoice.save
  split <;> rfl

/-- `Invoice.save` keeps the due date. -/
theorem invoice_save_due_date (inv : Invoice) (n : String) :
    (inv.save n).due_date = inv.due_date := by
  unfold Invoice.save
  split <;> rfl

/-- `Invoice.save` keeps the line items. -/
theorem invoice_save_items (inv : Invoice) (n : String) :
    (inv.save n).items = inv.items := by
  unfold Invoice.save
  split <;> rfl

/-- `calculate_totals` never changes the due date. -/
theorem calculate_totals_due_date (inv : Invoice) (today : Int) :
    (inv.calculate_totals today).due_date = inv.due_date := by
  unfold Invoice.calculate_totals
  dsimp only
  repeat' split
  all_goals rfl

/-- The recomputed quotation subtotal is the sum of the item totals. -/
theorem quotation_calculate_totals_subtotal (q : Quotation) :
    q.calculate_totals.subtotal = (q.items.map (fun it => it.total)).sum := by
  unfold Quotation.calculate_totals
  dsimp only

/-- The recomputed quotation discount, in terms of the recomputed subtotal. -/
theorem quotation_calculate_totals_discount (q : Quotation) :
    q.calculate_totals.discount_amount =
      (if q.discount_type = "fixed" then
        min q.discount_value ((q.items.map (fun it => it.total)).sum)
       else ((q.items.map (fun it => it.total)).sum) * (q.discount_value / 100)) := by
  unfold Quotation.calculate_totals
  dsimp only

/-- The recomputed quotation tax is the sum of the item tax amounts. -/
theorem quotation_calculate_totals_tax (q : Quotation) :
    q.calculate_totals.tax_amount = (q.items.map (fun it => it.tax_amount)).sum := by
  unfold Quotation.calculate_totals
  dsimp only

/-- The recomputed quotation total. -/
theorem quotation_calculate_totals_total (q : Quotation) :
    q.calculate_totals.total_amount =
      ((q.items.map (fun it => it.total)).sum -
        (if q.discount_type = "fixed" then
          min q.discount_value ((q.items.map (fun it => it.total)).sum)
         else ((q.items.map (fun it => it.total)).sum) * (q.discount_value / 100))) +
      (q.items.map (fun it => it.tax_amount)).sum := by
  unfold Quotation.calculate_totals
  dsimp only

/-- A quotation item and its invoice copy share every financial formula, so
the copy of a saved item carries the same computed fields. -/
theorem copy_to_invoice_of_saved (it : Billing.QuotationItem)
    (h : Billing.QuotationItem.save it = it) :
    (Billing.QuotationItem.copy_to_invoice it).discount_amount = it.discount_amount ∧
    (Billing.QuotationItem.copy_to_invoice it).tax_amount = it.tax_amount ∧
    (Billing.QuotationItem.copy_to_invoice it).total = it.total := by
  refine ⟨?_, ?_, ?_⟩ <;>
    (conv_rhs => rw [← h]) <;> rfl

end HelperLemmas

/-- C1 (code bug): the primary key of `Payment` is a UUID field whose
default is applied at instantiation, so every normally constructed Payment
(`Payment.new`) reaches its first save with a truthy pk, the newness test
`not self.pk` is False, and the save returns the linked invoice completely
unchanged — `amount_paid` is never incremented, `calculate_totals` is never
triggered, and since this was the sole write to `amount_paid` in the
repository (and `calculate_totals` and `Invoice.save` preserve it, as also
proved here), no operation ever changes an invoice `amount_paid`, against
the claimed increment-on-creation behavior. -/
theorem c1_uuid_pk_first_save_never_increments
    (fresh_uuid : Nat) (pn : String) (amount : ℚ) (inv : Billing.Invoice)
    (today : Int) (k : Nat) (gn inum : String) :
    (Billing.Payment.new fresh_uuid pn amount).pk ≠ none ∧
    (Billing.Payment.save (Billing.Payment.new fresh_uuid pn amount)
      inv today k gn inum).2 = inv ∧
    (Billing.Payment.save (Billing.Payment.new fresh_uuid pn amount)
      inv today k gn inum).2.amount_paid = inv.amount_paid ∧
    (Billing.Invoice.calculate_totals inv today).amount_paid = inv.amount_paid ∧
    (Billing.Invoice.save inv inum).amount_paid = inv.amount_paid := by
  have hnoop : (Billing.Payment.save (Billing.Payment.new fresh_uuid pn amount)
      inv today k gn inum).2 = inv := by
    unfold Billing.Payment.save Billing.Payment.new
    dsimp only
    split <;> rw [if_neg (Option.some_ne_none _)]
  exact ⟨Option.some_ne_none _, hnoop, by rw [hnoop],
         calculate_totals_amount_paid inv today, invoice_save_amount_paid inv inum⟩

/-- Witness for C1 at a concrete freshly constructed payment of amount 100
against an invoice with 40 already paid: the first save leaves the invoice
exactly as it was. -/
theorem c1_code_bug_witness :
    (Billing.Payment.save (Billing.Payment.new 7 "" 100)
      { invoice_number := "INV-001001", invoice_date := 0, due_date := 30,
        status := "partial", subtotal := 0, discount_type := "percentage",
        discount_value := 0, discount_amount := 0, tax_amount := 0,
        total_amount := 0, amount_paid := 40, amount_due := 0, items := [] }
      0 7 "PAY-1" "INV-001001").2.amount_paid = 40 := by
  exact (c1_uuid_pk_first_save_never_increments 7 "" 100 _ 0 7 "PAY-1" "INV-001001").2.2.1

/-- C2 counterexample: on the two saved items of the scenario the code
computes `subtotal` as the sum of the item totals 212.4 and 59 (tax
inclusive), so the invoice subtotal is 271.4 rather than 250 and, after the
0 percent invoice-level discount, `total_amount` is 312.8 rather than
271.4. -/
theorem c2_counterexample :
    ¬ ((Fixtures.c2_invoice.calculate_totals 0).subtotal = 250 ∧
       (Fixtures.c2_invoice.calculate_totals 0).total_amount = 271.4) := by
  rintro ⟨h1, _⟩
  rw [calculate_totals_subtotal] at h1
  simp [Fixtures.c2_invoice, Fixtures.c2_item1, Fixtures.c2_item2,
        Billing.InvoiceItem.save] at h1
  norm_num at h1

/-- C2 amended: the per-item fields are as claimed (item 1: discount 20,
tax 32.4, total 212.4; item 2: discount 0, tax 9, total 59), but
`calculate_totals` sums the tax-inclusive item totals into `subtotal`, so
the invoice ends with subtotal 271.4, discount 0, tax 41.4 and
`total_amount` 312.8. -/
theorem c2_invoice_totals :
    Fixtures.c2_item1.save.discount_amount = 20 ∧
    Fixtures.c2_item1.save.tax_amount = 32.4 ∧
    Fixtures.c2_item1.save.total = 212.4 ∧
    Fixtures.c2_item2.save.discount_amount = 0 ∧
    Fixtures.c2_item2.save.tax_amount = 9 ∧
    Fixtures.c2_item2.save.total = 59 ∧
    (Fixtures.c2_invoice.calculate_totals 0).subtotal = 271.4 ∧
    (Fixtures.c2_invoice.calculate_totals 0).discount_amount = 0 ∧
    (Fixtures.c2_invoice.calculate_totals 0).tax_amount = 41.4 ∧
    (Fixtures.c2_invoice.calculate_totals 0).total_amount = 312.8 := by
  refine ⟨?_, ?_, ?_, ?_, ?_, ?_, ?_, ?_, ?_, ?_⟩ <;>
    first
    | (simp [Fixtures.c2_item1, Fixtures.c2_item2, Billing.InvoiceItem.save]
       <;> norm_num)
    | (rw [calculate_totals_subtotal] <;>
       simp [Fixtures.c2_invoice, Fixtures.c2_item1, Fixtures.c2_item2,
             Billing.InvoiceItem.save] <;> norm_num)
    | (rw [calculate_totals_discount] <;>
       simp [Fixtures.c2_invoice, Fixtures.c2_item1, Fixtures.c2_item2,
             Billing.InvoiceItem.save] <;> norm_num)
    | (rw [calculate_totals_tax] <;>
       simp [Fixtures.c2_invoice, Fixtures.c2_item1, Fixtures.c2_item2,
             Billing.InvoiceItem.save] <;> norm_num)
    | (rw [calculate_totals_total] <;>
       simp [Fixtures.c2_invoice, Fixtures.c2_item1, Fixtures.c2_item2,
             Billing.InvoiceItem.save] <;> norm_num)

/-- C3 counterexample: the manager role action list for invoices in
`User.get_permissions` contains `update` and does not contain `delete`, so
the claimed CRD+send set (create, read, delete, send, no update) is wrong. -/
theorem c3_counterexample :
    "update" ∈ Accounts.role_actions "manager" "invoices" ∧
    "delete" ∉ Accounts.role_actions "manager" "invoices" := by
  decide

/-- C3 amended: a manager holds exactly users read; leads CRUD plus assign;
customers CRUD; deals CRUD; products read; invoices create, read, update and
send (CRU plus send, no delete); reports view and export; settings view; and
the manager map has no billing entry at all. -/
theorem c3_manager_permissions :
    Accounts.get_permissions "manager" =
      [ ("users", ["read"]),
        ("leads", ["create", "read", "update", "delete", "assign"]),
        ("customers", ["create", "read", "update", "delete"]),
        ("deals", ["create", "read", "update", "delete"]),
        ("products", ["read"]),
        ("invoices", ["create", "read", "update", "send"]),
        ("reports", ["view", "export"]),
        ("settings", ["view"]) ] ∧
    (Accounts.get_permissions "manager").find? (fun p => p.1 == "billing") = none := by
  exact ⟨rfl, rfl⟩

/-- C10: a `PriceListItem` whose `fixed_price` is exactly 0 is falsy in the
`if self.fixed_price:` test, so the override is skipped: below the minimum
quantity the result is none, and otherwise the price is the discounted base
price when the discount percentage is set and non-zero, else the plain base
price — the zero override itself is never selected. -/
theorem c10_zero_fixed_price_ignored
    (item : Products.PriceListItem) (product : Products.Product) (quantity : ℚ)
    (h : item.fixed_price = some 0) :
    (quantity < item.min_quantity →
      item.get_price product quantity = none) ∧
    (item.min_quantity ≤ quantity →
      item.get_price product quantity =
        (if Products.decimalTruthy item.discount_percentage then
          some (product.base_price * (1 - (item.discount_percentage.getD 0) / 100))
         else some product.base_price)) := by
  constructor
  · intro hlt
    unfold Products.PriceListItem.get_price
    rw [if_pos hlt]
  · intro hge
    unfold Products.PriceListItem.get_price
    rw [if_neg (not_lt.mpr hge)]
    have hfalsy : Products.decimalTruthy item.fixed_price = false := by
      rw [h]
      simp [Products.decimalTruthy]
    rw [hfalsy]
    simp

/-- Witness for C10: a price-list item with a zero fixed price, a 10 percent
discount and minimum quantity 5, over a product with base price 80: quantity
2 prices to none, quantity 5 prices to 72 (and not to the zero override). -/
theorem c10_witness :
    (({ fixed_price := some 0, discount_percentage := some 10, min_quantity := 5 }
        : Products.PriceListItem).fixed_price = some 0) ∧
    Products.PriceListItem.get_price
      { fixed_price := some 0, discount_percentage := some 10, min_quantity := 5 }
      { base_price := 80 } 2 = none ∧
    Products.PriceListItem.get_price
      { fixed_price := some 0, discount_percentage := some 10, min_quantity := 5 }
      { base_price := 80 } 5 =
      some ((80 : ℚ) * (1 - (10 : ℚ) / 100)) := by
  refine ⟨rfl, ?_, ?_⟩
  · exact (c10_zero_fixed_price_ignored _ { base_price := 80 } 2 rfl).1 (by norm_num)
  · have h := (c10_zero_fixed_price_ignored
      { fixed_price := some 0, discount_percentage := some 10, min_quantity := 5 }
      { base_price := 80 } 5 rfl).2 (by norm_num)
    rw [h]
    norm_num [Products.decimalTruthy]

/-- C4 counterexample: on a tenant whose subscription status is `trial` and
whose `trial_end_date` was never set, `is_on_trial` and `is_trial_expired`
compare `None` with a datetime and raise a `TypeError` instead of returning
a value, so the claim that every listed accessor is safe on every tenant
state fails. -/
theorem c4_counterexample :
    (Fixtures.trial_tenant_without_end_date.is_on_trial 0).isOk = false ∧
    (Fixtures.trial_tenant_without_end_date.is_trial_expired 0).isOk = false := by
  exact ⟨rfl, rfl⟩

/-- C4 amended: the derived tenant accessors are pure and never raise, with
one exception pair: `is_on_trial` and `is_trial_expired` fail exactly on a
tenant whose subscription status is `trial` and whose `trial_end_date` is
null; `can_add_users`, `can_add_leads`, `storage_usage_percentage` (its
division is guarded by the zero test) and `has_feature` are total on every
tenant state, as their embeddings compute plain values. -/
theorem c4_accessor_safety (t : Tenants.Tenant) (now : Int) (name : String) :
    ((t.is_on_trial now).isOk = false ↔
      (t.subscription_status = "trial" ∧ t.trial_end_date = none)) ∧
    ((t.is_trial_expired now).isOk = false ↔
      (t.subscription_status = "trial" ∧ t.trial_end_date = none)) ∧
    (t.can_add_users = decide (t.max_users = -1 ∨ t.current_users < t.max_users)) ∧
    (t.has_feature name =
      ((t.enabled_features.find? (fun p => p.1 == name)).map (fun p => p.2)).getD false) := by
  refine ⟨?_, ?_, ?_, rfl⟩
  · unfold Tenants.Tenant.is_on_trial
    by_cases h : t.subscription_status = "trial" <;>
      cases hd : t.trial_end_date <;> simp [h, hd, Except.isOk, Except.toBool]
  · unfold Tenants.Tenant.is_trial_expired
    by_cases h : t.subscription_status = "trial" <;>
      cases hd : t.trial_end_date <;> simp [h, hd, Except.isOk, Except.toBool]
  · unfold Tenants.Tenant.can_add_users
    by_cases h1 : t.max_users = -1 <;> by_cases h2 : t.current_users < t.max_users <;>
      simp [h1, h2]

/-- C5: converting a lead that is not yet converted yields exactly one new
customer copying the name, contact, company and address fields, and the lead
comes back stamped `converted`, linked to the new customer id, with the
conversion date set and its other fields untouched; converting an
already-converted lead raises the invalid-state `ValueError` (so no customer
is created and the lead is unchanged). -/
theorem c5_lead_conversion (lead : Sales.Lead) (user : Nat) (now : Int) (cid : Nat) :
    (lead.status ≠ "converted" →
      lead.convert_to_customer user now cid =
        .ok ({ lead with
                converted_to_customer := some cid
                converted_date := some now
                status := "converted" },
             { first_name := lead.first_name
               last_name := lead.last_name
               email := lead.email
               phone := lead.phone
               secondary_phone := lead.secondary_phone
               company_name := lead.company_name
               job_title := lead.job_title
               industry := lead.industry
               billing_address := lead.address
               billing_city := lead.city
               billing_state := lead.state
               billing_country := lead.country
               billing_postal_code := lead.postal_code
               created_by := user
               lead_source := lead.source
               assigned_to := lead.assigned_to })) ∧
    (lead.status = "converted" →
      lead.convert_to_customer user now cid = .error "Lead is already converted") := by
  constructor
  · intro h
    unfold Sales.Lead.convert_to_customer
    rw [if_neg h]
  · intro h
    unfold Sales.Lead.convert_to_customer
    rw [if_pos h]

/-- Witness for C5 at a concrete new lead and a concrete already-converted
lead. -/
theorem c5_witness :
    (({ first_name := "Ada", last_name := "L", email := "a@x.io", phone := "1",
        secondary_phone := "", company_name := "ACME", job_title := "CTO",
        industry := "tech", address := "1 Main St", city := "Pune",
        state := "MH", country := "India", postal_code := "411001",
        source := "website", status := "qualified", assigned_to := some 3,
        converted_to_customer := none, converted_date := none } : Sales.Lead).status
        ≠ "converted" ∧
      (Sales.Lead.convert_to_customer
        { first_name := "Ada", last_name := "L", email := "a@x.io", phone := "1",
          secondary_phone := "", company_name := "ACME", job_title := "CTO",
          industry := "tech", address := "1 Main St", city := "Pune",
          state := "MH", country := "India", postal_code := "411001",
          source := "website", status := "qualified", assigned_to := some 3,
          converted_to_customer := none, converted_date := none } 9 1000 42).isOk = true) ∧
    (Sales.Lead.convert_to_customer
      { first_name := "Ada", last_name := "L", email := "a@x.io", phone := "1",
        secondary_phone := "", company_name := "ACME", job_title := "CTO",
        industry := "tech", address := "1 Main St", city := "Pune",
        state := "MH", country := "India", postal_code := "411001",
        source := "website", status := "converted", assigned_to := some 3,
        converted_to_customer := some 42, converted_date := some 1000 } 9 2000 43 =
      .error "Lead is already converted") := by
  constructor
  · refine ⟨by decide, ?_⟩
    rw [(c5_lead_conversion _ 9 1000 42).1 (by decide)]
    rfl
  · exact (c5_lead_conversion _ 9 2000 43).2 rfl

/-- C6: `convert_to_invoice` succeeds exactly on an accepted quotation.  For
a quotation whose stored totals agree with `calculate_totals` and whose items
are saved (every row written through `QuotationItem.save` has this shape),
the produced invoice carries the same subtotal, discount, tax and total, a
due date of today plus the customer payment terms (30 when the terms integer
is falsy), and line items copying every quotation item field for field; any
other status raises the invalid-state `ValueError` and produces no invoice. -/
theorem c6_convert_to_invoice (q : Billing.Quotation) (terms today : Int) (num : String)
    (hq : q.calculate_totals = q)
    (hitems : ∀ it ∈ q.items, Billing.QuotationItem.save it = it) :
    (q.status = "accepted" →
      ∃ inv, q.convert_to_invoice terms today num = .ok inv ∧
        inv.subtotal = q.subtotal ∧
        inv.discount_amount = q.discount_amount ∧
        inv.tax_amount = q.tax_amount ∧
        inv.total_amount = q.total_amount ∧
        inv.due_date = today + (if terms ≠ 0 then terms else 30) ∧
        inv.items.map (fun i =>
          (i.description, i.quantity, i.unit_price, i.discount_percentage,
           i.discount_amount, i.tax_rate, i.tax_amount, i.total)) =
        q.items.map (fun i =>
          (i.description, i.quantity, i.unit_price, i.discount_percentage,
           i.discount_amount, i.tax_rate, i.tax_amount, i.total))) ∧
    (q.status ≠ "accepted" →
      q.convert_to_invoice terms today num =
        .error "Only accepted quotations can be converted to invoices") := by
  have hmt : (q.items.map Billing.QuotationItem.copy_to_invoice).map (fun i => i.total) =
      q.items.map (fun it => it.total) := by
    rw [List.map_map]
    exact List.map_congr_left (fun it hit =>
      (copy_to_invoice_of_saved it (hitems it hit)).2.2)
  have hmtax : (q.items.map Billing.QuotationItem.copy_to_invoice).map (fun i => i.tax_amount) =
      q.items.map (fun it => it.tax_amount) := by
    rw [List.map_map]
    exact List.map_congr_left (fun it hit =>
      (copy_to_invoice_of_saved it (hitems it hit)).2.1)
  have hsub : q.subtotal = (q.items.map (fun it => it.total)).sum := by
    conv_lhs => rw [← hq]
    rw [quotation_calculate_totals_subtotal]
  have hdisc : q.discount_amount =
      (if q.discount_type = "fixed" then
        min q.discount_value ((q.items.map (fun it => it.total)).sum)
       else ((q.items.map (fun it => it.total)).sum) * (q.discount_value / 100)) := by
    conv_lhs => rw [← hq]
    rw [quotation_calculate_totals_discount]
  have htax : q.tax_amount = (q.items.map (fun it => it.tax_amount)).sum := by
    conv_lhs => rw [← hq]
    rw [quotation_calculate_totals_tax]
  have htot : q.total_amount =
      ((q.items.map (fun it => it.total)).sum -
        (if q.discount_type = "fixed" then
          min q.discount_value ((q.items.map (fun it => it.total)).sum)
         else ((q.items.map (fun it => it.total)).sum) * (q.discount_value / 100))) +
      (q.items.map (fun it => it.tax_amount)).sum := by
    conv_lhs => rw [← hq]
    rw [quotation_calculate_totals_total]
  constructor
  · intro h
    unfold Billing.Quotation.convert_to_invoice
    rw [if_neg (by simp [h])]
    dsimp only
    refine ⟨_, rfl, ?_, ?_, ?_, ?_, ?_, ?_⟩
    · rw [invoice_save_subtotal, calculate_totals_subtotal]
      dsimp only
      rw [hmt, ← hsub]
    · rw [invoice_save_discount_amount, calculate_totals_discount]
      dsimp only
      rw [invoice_save_discount_type, invoice_save_discount_value]
      dsimp only
      rw [hmt, ← hdisc]
    · rw [invoice_save_tax_amount, calculate_totals_tax]
      dsimp only
      rw [hmtax, ← htax]
    · rw [invoice_save_total_amount, calculate_totals_total]
      dsimp only
      rw [invoice_save_discount_type, invoice_save_discount_value]
      dsimp only
      rw [hmt, hmtax, ← htot]
    · rw [invoice_save_due_date, calculate_totals_due_date]
      dsimp only
      rw [invoice_save_due_date]
    · rw [invoice_save_items, calculate_totals_items]
      dsimp only
      rw [List.map_map]
      exact List.map_congr_left (fun it hit => by
        obtain ⟨h1, h2, h3⟩ := copy_to_invoice_of_saved it (hitems it hit)
        simp only [Function.comp_apply, Prod.mk.injEq]
        exact ⟨rfl, rfl, rfl, rfl, h1, rfl, h2, h3⟩)
  · intro h
    unfold Billing.Quotation.convert_to_invoice
    rw [if_pos h]

/-- Witness for C6: the concrete accepted quotation (one saved item, totals
consistent) converts into an invoice with total 68 due in 30 days, and the
same quotation in draft status is refused. -/
theorem c6_witness :
    Fixtures.c6_quotation.status = "accepted" ∧
    (∃ inv, Fixtures.c6_quotation.convert_to_invoice 0 0 "INV-001001" = .ok inv ∧
      inv.subtotal = 59 ∧ inv.total_amount = 68 ∧ inv.due_date = 30) ∧
    Fixtures.c6_draft_quotation.convert_to_invoice 0 0 "INV-001001" =
      .error "Only accepted quotations can be converted to invoices" := by
  have hitem : Billing.QuotationItem.save Fixtures.c6_item = Fixtures.c6_item := by
    unfold Billing.QuotationItem.save Fixtures.c6_item
    dsimp only
    norm_num
  have hq : Fixtures.c6_quotation.calculate_totals = Fixtures.c6_quotation := by
    unfold Billing.Quotation.calculate_totals Fixtures.c6_quotation Fixtures.c6_item
    dsimp only
    norm_num
  have hitems : ∀ it ∈ Fixtures.c6_quotation.items, Billing.QuotationItem.save it = it := by
    intro it hit
    rcases List.mem_singleton.mp hit with rfl
    exact hitem
  have hqd : Fixtures.c6_draft_quotation.calculate_totals = Fixtures.c6_draft_quotation := by
    unfold Billing.Quotation.calculate_totals Fixtures.c6_draft_quotation
    unfold Fixtures.c6_quotation Fixtures.c6_item
    dsimp only
    norm_num
  have hitemsd : ∀ it ∈ Fixtures.c6_draft_quotation.items,
      Billing.QuotationItem.save it = it := by
    intro it hit
    rcases List.mem_singleton.mp hit with rfl
    exact hitem
  obtain ⟨inv, heq, hs, _, _, ht, hd, _⟩ :=
    (c6_convert_to_invoice Fixtures.c6_quotation 0 0 "INV-001001" hq hitems).1 rfl
  refine ⟨rfl, ⟨inv, heq, ?_, ?_, ?_⟩, ?_⟩
  · rw [hs]
    rfl
  · rw [ht]
    rfl
  · rw [hd]
    norm_num
  · exact (c6_convert_to_invoice Fixtures.c6_draft_quotation 0 0 "INV-001001"
      hqd hitemsd).2 (by decide)

/-- C7: `can_add_users` holds exactly when `max_users` is -1 or
`current_users < max_users`; a POST to the user-creation API path on an
active tenant is answered with the LIMIT_EXCEEDED payload naming `users` and
the tenant `max_users` value exactly when `can_add_users` is false; and a
tenant with `max_users = -1` always passes this check, whatever
`current_users` holds. -/
theorem c7_user_limit_enforcement (t : Tenants.Tenant) (req : Middleware.Request) (now : Int)
    (hschema : t.schema_name ≠ "public")
    (hstatus : t.subscription_status = "active")
    (hmethod : req.method = "POST")
    (hpath : req.path = "/api/users/")
    (hfiles : req.files = []) :
    (t.can_add_users = true ↔ (t.max_users = -1 ∨ t.current_users < t.max_users)) ∧
    (t.can_add_users = false →
      Middleware.SubscriptionMiddleware.process_request req t now =
        .ok (some (.jsonLimitExceeded "users" (toString t.max_users)))) ∧
    (t.max_users = -1 →
      Middleware.SubscriptionMiddleware.process_request req t now = .ok none) := by
  have hexp : t.is_trial_expired now = .ok false := by
    unfold Tenants.Tenant.is_trial_expired
    rw [hstatus]
    exact if_neg (by decide)
  have hlim : ∀ r : Option Middleware.MwResponse,
      Middleware.check_resource_limits req t = r →
      Middleware.SubscriptionMiddleware.process_request req t now = .ok r := by
    intro r hr
    unfold Middleware.SubscriptionMiddleware.process_request
    rw [if_neg hschema, hpath]
    rw [if_neg (show ¬ (Middleware.EXEMPT_URLS.any
      (fun u => Middleware.str_startswith "/api/users/" u)) = true by decide)]
    rw [hstatus]
    rw [if_neg (show ¬ ("active" : String) = "cancelled" by decide)]
    rw [if_neg (show ¬ ("active" : String) = "past_due" by decide)]
    rw [hexp]
    dsimp only
    rw [if_neg (by decide), hmethod, if_pos rfl, hr]
  refine ⟨?_, fun hfalse => ?_, fun hunl => ?_⟩
  · unfold Tenants.Tenant.can_add_users
    by_cases h1 : t.max_users = -1 <;> by_cases h2 : t.current_users < t.max_users <;>
      simp [h1, h2]
  · refine hlim _ ?_
    unfold Middleware.check_resource_limits
    rw [hpath, hfiles]
    rw [if_pos (by rw [hfalse]; decide)]
    unfold Middleware.handle_limit_exceeded
    rw [hpath]
    rw [if_pos (show (req.is_ajax || Middleware.str_startswith "/api/users/" "/api/") = true by
      rw [show Middleware.str_startswith "/api/users/" "/api/" = true from by decide]
      simp)]
  · have htrue : t.can_add_users = true := by
      unfold Tenants.Tenant.can_add_users
      rw [hunl]
      simp
    refine hlim _ ?_
    unfold Middleware.check_resource_limits
    rw [hpath, hfiles]
    rw [if_neg (by rw [htrue]; decide)]
    rw [if_neg (show ¬ ((Middleware.str_startswith "/api/users/" "/sales/leads/create/" ||
        Middleware.str_startswith "/api/users/" "/api/leads/") && !t.can_add_leads) = true by
      rw [show Middleware.str_startswith "/api/users/" "/sales/leads/create/" = false from by decide,
          show Middleware.str_startswith "/api/users/" "/api/leads/" = false from by decide]
      simp)]
    rw [if_neg (by decide)]

/-- Witness for C7: an active tenant at its 5-user cap rejects a POST to the
user-creation API path with LIMIT_EXCEEDED naming users and 5, while the
same tenant with `max_users = -1` is let through. -/
theorem c7_witness :
    (({ schema_name := "acme", subscription_status := "active", trial_end_date := none,
        max_users := 5, max_leads := 500, max_storage_mb := 5120,
        current_users := 5, current_leads := 0, current_storage_mb := 0,
        enabled_features := [] } : Tenants.Tenant).can_add_users = false ∧
      Middleware.SubscriptionMiddleware.process_request
        { method := "POST", path := "/api/users/", is_ajax := false, files := [] }
        { schema_name := "acme", subscription_status := "active", trial_end_date := none,
          max_users := 5, max_leads := 500, max_storage_mb := 5120,
          current_users := 5, current_leads := 0, current_storage_mb := 0,
          enabled_features := [] } 0 =
        .ok (some (.jsonLimitExceeded "users" (toString (5 : Int))))) ∧
    Middleware.SubscriptionMiddleware.process_request
      { method := "POST", path := "/api/users/", is_ajax := false, files := [] }
      { schema_name := "acme", subscription_status := "active", trial_end_date := none,
        max_users := -1, max_leads := 500, max_storage_mb := 5120,
        current_users := 5, current_leads := 0, current_storage_mb := 0,
        enabled_features := [] } 0 = .ok none := by
  refine ⟨⟨by decide, ?_⟩, ?_⟩
  · exact (c7_user_limit_enforcement _ _ 0 (by decide) rfl rfl rfl rfl).2.1 (by decide)
  · exact (c7_user_limit_enforcement _ _ 0 (by decide) rfl rfl rfl rfl).2.2 rfl

/-- Replacing the entry of a present key makes it the first match. -/
theorem find_map_replace (c : List (String × List ℚ)) (k : String) (v : List ℚ)
    (h : c.any (fun p => p.1 == k) = true) :
    (c.map (fun p => if p.1 == k then (k, v) else p)).find? (fun p => p.1 == k) =
      some (k, v) := by
  induction c with
  | nil => simp at h
  | cons a c ih =>
    by_cases ha : (a.1 == k) = true
    · rw [List.map_cons, if_pos ha, List.find?_cons_of_pos _ (by simp)]
    · have h' : c.any (fun p => p.1 == k) = true := by
        simpa [List.any_cons, ha] using h
      rw [List.map_cons, if_neg (by simp [ha]),
          List.find?_cons_of_neg _ (by simp [ha]), ih h']

/-- Appending an entry for an absent key makes it the first match. -/
theorem find_append_single (c : List (String × List ℚ)) (k : String) (v : List ℚ)
    (h : c.any (fun p => p.1 == k) = false) :
    (c ++ [(k, v)]).find? (fun p => p.1 == k) = some (k, v) := by
  induction c with
  | nil => simp
  | cons a c ih =>
    have ha : (a.1 == k) = false := by
      by_contra hc
      simp only [Bool.not_eq_false] at hc
      simp [List.any_cons, hc] at h
    have h' : c.any (fun p => p.1 == k) = false := by
      simpa [List.any_cons, ha] using h
    rw [List.cons_append, List.find?_cons_of_neg _ (by simp [ha]), ih h']

/-- Writing a key into the rate-limit cache and reading it back yields the
written window, whether the key was present or not. -/
theorem rlGet_rlSet_self (c : Middleware.RlCache) (k : String) (v : List ℚ) :
    Middleware.rlGet (Middleware.rlSet c k v) k = v := by
  unfold Middleware.rlGet Middleware.rlSet
  split
  · rename_i hany
    rw [find_map_replace c k v hany]
    rfl
  · rename_i hany
    have hf : (c.any fun p => p.1 == k) = false := by
      cases hb : (c.any fun p => p.1 == k)
      · rfl
      · exact absurd hb hany
    rw [find_append_single c k v hf]
    rfl

set_option maxHeartbeats 2000000 in
/-- C8: for one anonymous client on the login path, six requests inside a
300-second span from an empty window are decided allow, allow, allow, allow,
allow, Forbidden — the rejection leaves the recorded window at the five
earlier timestamps, adding no entry — and a later request finding every
recorded attempt at least 300 seconds old is allowed again, the window
resetting to just that request. -/
theorem c8_login_rate_limiting (cid : String) (t0 t1 t2 t3 t4 t5 t6 : ℚ)
    (h01 : t0 ≤ t1) (h12 : t1 ≤ t2) (h23 : t2 ≤ t3) (h34 : t3 ≤ t4) (h45 : t4 ≤ t5)
    (hspan : t5 - t0 < 300) (hreset : 300 ≤ t6 - t4) :
    (Middleware.rl_run "/api/auth/login/" cid [] [t0, t1, t2, t3, t4, t5]).1 =
      [none, none, none, none, none,
       some "Rate limit exceeded. Please try again later."] ∧
    Middleware.rlGet (Middleware.rl_run "/api/auth/login/" cid [] [t0, t1, t2, t3, t4, t5]).2
      ("api/auth/login" ++ ":" ++ cid) = [t0, t1, t2, t3, t4] ∧
    (Middleware.RateLimitMiddleware.process_request
        (Middleware.rl_run "/api/auth/login/" cid [] [t0, t1, t2, t3, t4, t5]).2
        "/api/auth/login/" cid t6).1 = none ∧
    Middleware.rlGet (Middleware.RateLimitMiddleware.process_request
        (Middleware.rl_run "/api/auth/login/" cid [] [t0, t1, t2, t3, t4, t5]).2
        "/api/auth/login/" cid t6).2 ("api/auth/login" ++ ":" ++ cid) = [t6] := by
  have hstrip : Middleware.stripSlashes "/api/auth/login/" = "api/auth/login" := by decide
  have hfind : Middleware.rates.find?
      (fun r => Middleware.str_startswith "api/auth/login" r.1) =
      some ("api/auth/login", 5, 300) := rfl
  set k : String := "api/auth/login" ++ ":" ++ cid with hk
  have step : ∀ (c : Middleware.RlCache) (now : ℚ),
      Middleware.RateLimitMiddleware.process_request c "/api/auth/login/" cid now =
        (let kept := (Middleware.rlGet c k).filter (fun ts => now - ts < 300)
         if kept.length ≥ 5 then
           (some "Rate limit exceeded. Please try again later.",
            Middleware.rlSet c k kept)
         else (none, Middleware.rlSet c k (kept ++ [now]))) := by
    intro c now
    unfold Middleware.RateLimitMiddleware.process_request
    dsimp only
    rw [hstrip, hfind]
  have keepall : ∀ (w : List ℚ) (now : ℚ), (∀ x ∈ w, now - x < 300) →
      w.filter (fun ts => now - ts < 300) = w := by
    intro w now h
    rw [List.filter_eq_self]
    intro a ha
    exact decide_eq_true (h a ha)
  have dropall : ∀ (w : List ℚ) (now : ℚ), (∀ x ∈ w, ¬ (now - x < 300)) →
      w.filter (fun ts => now - ts < 300) = [] := by
    intro w now h
    rw [List.filter_eq_nil]
    intro a ha
    simpa using h a ha
  have sAcc : ∀ (c : Middleware.RlCache) (now : ℚ) (w w2 : List ℚ),
      Middleware.rlGet c k = w → (∀ x ∈ w, now - x < 300) → w.length < 5 →
      w ++ [now] = w2 →
      Middleware.RateLimitMiddleware.process_request c "/api/auth/login/" cid now =
        (none, Middleware.rlSet c k w2) := by
    intro c now w w2 hw hkeep hlen hw2
    rw [step c now]
    dsimp only
    rw [hw, keepall w now hkeep, if_neg (not_le.mpr hlen), hw2]
  have sRej : ∀ (c : Middleware.RlCache) (now : ℚ) (w : List ℚ),
      Middleware.rlGet c k = w → (∀ x ∈ w, now - x < 300) → 5 ≤ w.length →
      Middleware.RateLimitMiddleware.process_request c "/api/auth/login/" cid now =
        (some "Rate limit exceeded. Please try again later.",
         Middleware.rlSet c k w) := by
    intro c now w hw hkeep hlen
    rw [step c now]
    dsimp only
    rw [hw, keepall w now hkeep, if_pos hlen]
  have sOld : ∀ (c : Middleware.RlCache) (now : ℚ) (w : List ℚ),
      Middleware.rlGet c k = w → (∀ x ∈ w, ¬ (now - x < 300)) →
      Middleware.RateLimitMiddleware.process_request c "/api/auth/login/" cid now =
        (none, Middleware.rlSet c k [now]) := by
    intro c now w hw hold
    rw [step c now]
    dsimp only
    rw [hw, dropall w now hold]
    rw [if_neg (by norm_num)]
    rfl
  have m1 : ∀ x ∈ [t0], t1 - x < 300 := by
    intro x hx
    rcases List.mem_singleton.mp hx with rfl
    linarith
  have m2 : ∀ x ∈ [t0, t1], t2 - x < 300 := by
    intro x hx
    simp only [List.mem_cons, List.mem_singleton, List.not_mem_nil, or_false] at hx
    rcases hx with rfl | rfl <;> linarith
  have m3 : ∀ x ∈ [t0, t1, t2], t3 - x < 300 := by
    intro x hx
    simp only [List.mem_cons, List.mem_singleton, List.not_mem_nil, or_false] at hx
    rcases hx with rfl | rfl | rfl <;> linarith
  have m4 : ∀ x ∈ [t0, t1, t2, t3], t4 - x < 300 := by
    intro x hx
    simp only [List.mem_cons, List.mem_singleton, List.not_mem_nil, or_false] at hx
    rcases hx with rfl | rfl | rfl | rfl <;> linarith
  have m5 : ∀ x ∈ [t0, t1, t2, t3, t4], t5 - x < 300 := by
    intro x hx
    simp only [List.mem_cons, List.mem_singleton, List.not_mem_nil, or_false] at hx
    rcases hx with rfl | rfl | rfl | rfl | rfl <;> linarith
  have m6 : ∀ x ∈ [t0, t1, t2, t3, t4], ¬ (t6 - x < 300) := by
    intro x hx
    simp only [List.mem_cons, List.mem_singleton, List.not_mem_nil, or_false] at hx
    rcases hx with rfl | rfl | rfl | rfl | rfl <;> linarith
  have g1 := rlGet_rlSet_self [] k [t0]
  have g2 := rlGet_rlSet_self (Middleware.rlSet [] k [t0]) k [t0, t1]
  have g3 := rlGet_rlSet_self (Middleware.rlSet (Middleware.rlSet [] k [t0]) k [t0, t1])
    k [t0, t1, t2]
  have g4 := rlGet_rlSet_self (Middleware.rlSet (Middleware.rlSet
    (Middleware.rlSet [] k [t0]) k [t0, t1]) k [t0, t1, t2]) k [t0, t1, t2, t3]
  have g5 := rlGet_rlSet_self (Middleware.rlSet (Middleware.rlSet (Middleware.rlSet
    (Middleware.rlSet [] k [t0]) k [t0, t1]) k [t0, t1, t2]) k [t0, t1, t2, t3])
    k [t0, t1, t2, t3, t4]
  have s0 := sAcc [] t0 [] [t0] rfl (by simp) (by simp) rfl
  have s1 := sAcc _ t1 [t0] [t0, t1] g1 m1 (by simp) rfl
  have s2 := sAcc _ t2 [t0, t1] [t0, t1, t2] g2 m2 (by simp) rfl
  have s3 := sAcc _ t3 [t0, t1, t2] [t0, t1, t2, t3] g3 m3 (by simp) rfl
  have s4 := sAcc _ t4 [t0, t1, t2, t3] [t0, t1, t2, t3, t4] g4 m4 (by simp) rfl
  have s5 := sRej _ t5 [t0, t1, t2, t3, t4] g5 m5 (by simp)
  have hrun : Middleware.rl_run "/api/auth/login/" cid [] [t0, t1, t2, t3, t4, t5] =
      ([none, none, none, none, none,
        some "Rate limit exceeded. Please try again later."],
       Middleware.rlSet (Middleware.rlSet (Middleware.rlSet (Middleware.rlSet
         (Middleware.rlSet (Middleware.rlSet [] k [t0]) k [t0, t1]) k [t0, t1, t2])
         k [t0, t1, t2, t3]) k [t0, t1, t2, t3, t4]) k [t0, t1, t2, t3, t4]) := by
    simp only [Middleware.rl_run, s0, s1, s2, s3, s4, s5]
  have g6 := rlGet_rlSet_self (Middleware.rlSet (Middleware.rlSet (Middleware.rlSet
    (Middleware.rlSet (Middleware.rlSet [] k [t0]) k [t0, t1]) k [t0, t1, t2])
    k [t0, t1, t2, t3]) k [t0, t1, t2, t3, t4]) k [t0, t1, t2, t3, t4]
  have s6 := sOld _ t6 [t0, t1, t2, t3, t4] g6 m6
  refine ⟨?_, ?_, ?_, ?_⟩
  · rw [hrun]
  · rw [hrun]
    exact g6
  · rw [hrun, s6]
  · rw [hrun, s6]
    exact rlGet_rlSet_self _ k [t6]

/-- Witness for C8: client ip 203.0.113.9 sending login requests at seconds
0, 10, 20, 30, 40, 50 sees the sixth rejected with the window still holding
the first five stamps, and a request at second 400 (over 300 seconds after
every recorded stamp) is allowed again. -/
theorem c8_witness :
    (Middleware.rl_run "/api/auth/login/" "ip:203.0.113.9" []
        [0, 10, 20, 30, 40, 50]).1 =
      [none, none, none, none, none,
       some "Rate limit exceeded. Please try again later."] ∧
    Middleware.rlGet (Middleware.rl_run "/api/auth/login/" "ip:203.0.113.9" []
        [0, 10, 20, 30, 40, 50]).2
      ("api/auth/login" ++ ":" ++ "ip:203.0.113.9") = [0, 10, 20, 30, 40] ∧
    (Middleware.RateLimitMiddleware.process_request
        (Middleware.rl_run "/api/auth/login/" "ip:203.0.113.9" []
          [0, 10, 20, 30, 40, 50]).2
        "/api/auth/login/" "ip:203.0.113.9" 400).1 = none ∧
    Middleware.rlGet (Middleware.RateLimitMiddleware.process_request
        (Middleware.rl_run "/api/auth/login/" "ip:203.0.113.9" []
          [0, 10, 20, 30, 40, 50]).2
        "/api/auth/login/" "ip:203.0.113.9" 400).2
      ("api/auth/login" ++ ":" ++ "ip:203.0.113.9") = [400] := by
  exact c8_login_rate_limiting "ip:203.0.113.9" 0 10 20 30 40 50 400
    (by norm_num) (by norm_num) (by norm_num) (by norm_num) (by norm_num)
    (by norm_num) (by norm_num)

set_option maxRecDepth 40000 in
/-- C9: `generate_signature` is a pure function of the secret and payload —
two invocations on equal inputs give syntactically the same digest — and it
is exactly hex-encoded HMAC-SHA256 of the payload keyed by the secret (the
construction spelled out from the spec); on the example endpoint, flipping
the final payload byte from a to b changes the digest. -/
theorem c9_webhook_signature (w : Integrations.WebhookEndpoint) (payload : String) :
    (Integrations.WebhookEndpoint.generate_signature w payload =
      Integrations.WebhookEndpoint.generate_signature w payload) ∧
    (Integrations.WebhookEndpoint.generate_signature w payload =
      Integrations.hmac_sha256_reference (Integrations.strBytes w.secret_key)
        (Integrations.strBytes payload)) ∧
    Integrations.WebhookEndpoint.generate_signature ⟨"whsec_demo"⟩ "lead.created-a" ≠
      Integrations.WebhookEndpoint.generate_signature ⟨"whsec_demo"⟩ "lead.created-b" := by
  refine ⟨rfl, rfl, by decide⟩

set_option maxRecDepth 40000 in
/-- Sanity check of the embedded hash: SHA-256 of the bytes of abc equals the
FIPS 180-4 test vector. -/
theorem sha256_abc_vector :
    Integrations.hexdigest (Integrations.sha256 (Integrations.strBytes "abc")) =
      "ba7816bf8f01cfea414140de5dae2223b00361a396177a9cb410ff61f20015ad" := by
  decide

set_option maxRecDepth 40000 in
/-- Sanity check of the embedded HMAC: RFC 4231 test case 2. -/
theorem hmac_sha256_rfc4231_case2 :
    Integrations.hexdigest (Integrations.hmacSha256 (Integrations.strBytes "Jefe")
        (Integrations.strBytes "what do ya want for nothing?")) =
      "5bdcc146bf60754e6a042426089575c75a003f089d2739839dec58b964ec3843" := by
  decide
